import Mathlib

/-!
Shallow embedding of `src/dgraph-service/install-schema.py`.

The script:
  1. builds a GraphQL mutation string from a fixed triple-quoted template and
     the text of a schema file (`mutation.replace("$my_schema", schema)`),
  2. collapses whitespace over the whole string:
     `mutation.replace(A, B).replace(C, D)...` with the four passes
     newline to empty, two spaces to one, tab to space, two spaces to one,
  3. runs a connection loop `for i in range(0, 15)` that POSTs the mutation,
     catching `requests.exceptions.ConnectionError` (sleep 1, print a wait
     message); the loop body has no break, so every iteration issues a POST,
  4. sets `message = r.json()` once, then runs a polling loop
     `for i in range(0, 15)` that, when `"errors" in message`, re-POSTs,
     prints a wait message and sleeps 3; `message` is never reassigned,
  5. prints `r` and `r.json()`.

Strings are modelled as `List Char`.  HTTP is modelled by an oracle
`Nat → PostOutcome` giving the outcome of the k-th POST issued by the
process (0-based).  A decoded JSON body is an association list whose keys
are what the membership test `"errors" in message` inspects.
-/

/-- The Python call `s.replace(a, rep)` for a single-character pattern `a`:
every occurrence of `a` is replaced by `rep`, scanning left to right. -/
def pyReplaceChar (a : Char) (rep : List Char) : List Char → List Char
  | [] => []
  | c :: cs => if c = a then rep ++ pyReplaceChar a rep cs else c :: pyReplaceChar a rep cs

/-- The Python call replacing two consecutive spaces by one: scan left to
right; each non-overlapping occurrence of two spaces becomes one space, and
scanning resumes after the replacement (the emitted space is not
re-examined against the next character). -/
def squeezeSpaces : List Char → List Char
  | [] => []
  | [c] => [c]
  | a :: b :: t =>
    if a = ' ' ∧ b = ' ' then ' ' :: squeezeSpaces t
    else a :: squeezeSpaces (b :: t)

/-- The whitespace-collapsing chain of the script, applied in source order:
delete newlines, squeeze double spaces, replace tabs by spaces, squeeze
double spaces again. -/
def collapse (s : List Char) : List Char :=
  squeezeSpaces (pyReplaceChar '\t' [' '] (squeezeSpaces (pyReplaceChar '\n' [] s)))

/-- The template text before the `$my_schema` marker. -/
def templatePre : List Char :=
  "mutation \x7b\n  updateGQLSchema(\n    input: \x7b set: \x7b schema: \"".data

/-- The template text after the `$my_schema` marker. -/
def templatePost : List Char :=
  "\"\x7d\x7d)\n  \x7b\n    gqlSchema \x7b\n      schema\n      generatedSchema\n    \x7d\n  \x7d\n\x7d\n".data

/-- The `$my_schema` substitution marker. -/
def mySchemaMarker : List Char := "$my_schema".data

/-- The literal triple-quoted template assigned to `mutation` in the script. -/
def template : List Char := templatePre ++ mySchemaMarker ++ templatePost

/-- The call `mutation.replace("$my_schema", schema)`: the marker occurs
exactly once in the template (shown by `marker_occurs_once` below), so the
replacement is the split of the template at the marker. -/
def substMySchema (schema : List Char) : List Char :=
  templatePre ++ schema ++ templatePost

/-- The mutation payload actually POSTed: substitution, then whitespace
collapse applied to the whole resulting string. -/
def buildMutation (schema : List Char) : List Char :=
  collapse (substMySchema schema)

/-- `begins pat s` holds when `pat` is an initial segment of `s`. -/
def begins : List Char → List Char → Bool
  | [], _ => true
  | _ :: _, [] => false
  | p :: ps, c :: cs => p == c && begins ps cs

/-- `containsSub pat s` holds when `pat` occurs contiguously inside `s`. -/
def containsSub (pat : List Char) : List Char → Bool
  | [] => pat.isEmpty
  | c :: cs => begins pat (c :: cs) || containsSub pat cs

/-- `noDoubleSpace s` holds when `s` has no two consecutive spaces. -/
def noDoubleSpace : List Char → Bool
  | [] => true
  | [_] => true
  | a :: b :: t => (!(a == ' ') || !(b == ' ')) && noDoubleSpace (b :: t)

/-- The first character, if any, is not a space. -/
def headNotSpace : List Char → Prop
  | [] => True
  | c :: _ => c ≠ ' '

/-- The last character, if any, is not a space. -/
def lastNotSpace : List Char → Prop
  | [] => True
  | [c] => c ≠ ' '
  | _ :: c :: t => lastNotSpace (c :: t)

instance : (s : List Char) → Decidable (headNotSpace s)
  | [] => isTrue trivial
  | _ :: _ => instDecidableNot

instance instDecLastNotSpace : (s : List Char) → Decidable (lastNotSpace s)
  | [] => isTrue trivial
  | [_] => instDecidableNot
  | _ :: c :: t => instDecLastNotSpace (c :: t)

/-- A decoded JSON response body, seen by the script only through key
membership (`"errors" in message`); values are opaque. -/
abbrev Json := List (String × Nat)

/-- The Python membership test `key in dict`. -/
def hasKey (j : Json) (key : String) : Bool :=
  j.any fun kv => kv.fst == key

/-- The outcome of one `requests.post` call: either the connection is
refused (`requests.exceptions.ConnectionError`) or a response arrives whose
body decodes to `body`. -/
inductive PostOutcome where
  | connError : PostOutcome
  | success : Json → PostOutcome
deriving DecidableEq

/-- A response object `r`: `idx` records which POST (0-based, process-wide)
produced it, `body` is what `r.json()` decodes to. -/
structure Response where
  idx : Nat
  body : Json
deriving DecidableEq

/-- Observable side effects of the run, in order. -/
inductive Event where
  | post : Nat → Event            -- the k-th POST is issued
  | sleep : Nat → Event           -- time.sleep(secs)
  | printWaitConn : Event         -- the waiting-for-connection print
  | printWaitDb : Nat → Event     -- the waiting-for-db print with loop index i
deriving DecidableEq

/-- State threaded through the connection loop. -/
structure St where
  k : Nat                  -- POSTs issued so far
  r : Option Response      -- the variable `r`; `none` until a POST returns
  events : List Event
deriving DecidableEq

/-- One iteration of the connection loop: try to POST; on
`ConnectionError`, sleep 1 and print the wait message, leaving `r` as it
was.  A POST is issued unconditionally in every iteration. -/
def connIter (oracle : Nat → PostOutcome) (st : St) : St :=
  match oracle st.k with
  | .connError =>
      { k := st.k + 1, r := st.r
        events := st.events ++ [.post st.k, .sleep 1, .printWaitConn] }
  | .success b =>
      { k := st.k + 1, r := some ⟨st.k, b⟩
        events := st.events ++ [.post st.k] }

/-- The connection loop `for i in range(0, 15)`: 15 iterations, no break. -/
def connLoop (oracle : Nat → PostOutcome) : St :=
  Nat.repeat (connIter oracle) 15 ⟨0, none, []⟩

/-- State threaded through the polling loop (`r` now definitely exists). -/
structure PSt where
  k : Nat
  r : Response
  events : List Event
deriving DecidableEq

/-- One iteration of the polling loop.  `message` is the fixed decoded body
tested by the `"errors" in message` condition; on a re-POST refused by the
endpoint the `ConnectionError` is uncaught, aborting the run (modelled as
`.error` carrying the trace up to and including the fatal POST). -/
def pollIter (oracle : Nat → PostOutcome) (message : Json) (i : Nat) (st : PSt) :
    Except (List Event) PSt :=
  if hasKey message "errors" then
    match oracle st.k with
    | .connError => .error (st.events ++ [.post st.k])
    | .success b =>
        .ok { k := st.k + 1, r := ⟨st.k, b⟩
              events := st.events ++ [.post st.k, .printWaitDb i, .sleep 3] }
  else .ok st

/-- The polling loop `for i in range(0, 15)`, running `n` remaining
iterations with loop index `i`.  `message` is never reassigned by the loop:
it is a fixed parameter, exactly as in the source. -/
def pollLoop (oracle : Nat → PostOutcome) (message : Json) :
    Nat → Nat → PSt → Except (List Event) PSt
  | _, 0, st => .ok st
  | i, n + 1, st =>
    match pollIter oracle message i st with
    | .ok st' => pollLoop oracle message (i + 1) n st'
    | .error e => .error e

/-- How the process ends. -/
inductive Outcome where
  | report : Response → Outcome     -- the final prints of r and r.json()
  | nameErrorCrash : Outcome        -- `r` was never assigned: NameError at r.json()
  | connErrorCrash : Outcome        -- uncaught ConnectionError in the polling loop
deriving DecidableEq

/-- The whole run after the mutation is built: connection loop, then
`message = r.json()` (a `NameError` if no POST ever returned a response),
then the polling loop, then the final prints.  Returns the event trace and
the outcome. -/
def run (oracle : Nat → PostOutcome) : List Event × Outcome :=
  let c := connLoop oracle
  match c.r with
  | none => (c.events, .nameErrorCrash)
  | some r0 =>
    match pollLoop oracle r0.body 0 15 ⟨c.k, r0, c.events⟩ with
    | .error e => (e, .connErrorCrash)
    | .ok st => (st.events, .report st.r)

/-- Is an event a POST? -/
def isPost : Event → Bool
  | .post _ => true
  | _ => false

/-- Is an event a sleep? -/
def isSleep : Event → Bool
  | .sleep _ => true
  | _ => false

/-- Number of POST requests in a trace. -/
def countPosts (es : List Event) : Nat := (es.filter isPost).length

/-- Number of fixed-delay waits in a trace. -/
def countSleeps (es : List Event) : Nat := (es.filter isSleep).length

/-- A clean response body: it has a `gqlSchema` key and no `errors` key. -/
def gqlBody : Json := [("gqlSchema", 0)]

/-- An erroring response body: it has an `errors` key. -/
def errBody : Json := [("errors", 0)]

/-- Scenario A endpoint: immediately reachable, every body clean. -/
def oracleA : Nat → PostOutcome := fun _ => .success gqlBody

/-- Scenario C endpoint, mapped onto the process-wide POST numbering the
code actually produces: the 15 connection-loop POSTs (0 to 14) and the
first 4 polling re-POSTs (15 to 18) return erroring bodies, every later
POST returns a clean body. -/
def oracleC : Nat → PostOutcome :=
  fun k => if k < 19 then .success errBody else .success gqlBody

/-- The response bodies of `oracleC`, as a function. -/
def bodiesC : Nat → Json := fun k => if k < 19 then errBody else gqlBody

/-- An endpoint that refuses every connection. -/
def oracleFail : Nat → PostOutcome := fun _ => .connError

/-- Scenario D endpoint: always reachable, every body erroring. -/
def oracleD : Nat → PostOutcome := fun _ => .success errBody

/-- An endpoint that accepts the 15 connection-loop POSTs with erroring
bodies, then refuses the first polling re-POST. -/
def oracleCrash : Nat → PostOutcome :=
  fun k => if k < 15 then .success errBody else .connError

-- ======================================================================
-- Helper lemmas (shared)
-- ======================================================================

/-- Sanity check for `substMySchema`: the `$my_schema` marker occurs in
neither half of the split template, so the Python replacement — which
substitutes every occurrence — coincides with splitting at the marker. -/
theorem marker_occurs_once :
    containsSub mySchemaMarker templatePre = false ∧
    containsSub mySchemaMarker templatePost = false ∧
    template = templatePre ++ mySchemaMarker ++ templatePost :=
  ⟨by decide, by decide, rfl⟩

theorem pyReplaceChar_append (a : Char) (rep u v : List Char) :
    pyReplaceChar a rep (u ++ v) = pyReplaceChar a rep u ++ pyReplaceChar a rep v := by
  induction u with
  | nil => simp [pyReplaceChar]
  | cons c cs ih =>
    by_cases hc : c = a <;> simp [pyReplaceChar, hc, ih]

theorem pyReplaceChar_eq_self (a : Char) (rep : List Char) (s : List Char)
    (h : a ∉ s) : pyReplaceChar a rep s = s := by
  induction s with
  | nil => rfl
  | cons c cs ih =>
    simp only [List.mem_cons, not_or] at h
    have hne : c ≠ a := fun he => h.1 he.symm
    simp [pyReplaceChar, hne, ih h.2]

theorem mem_pyReplaceChar (a c : Char) (rep s : List Char)
    (h : c ∈ pyReplaceChar a rep s) : c ∈ rep ∨ c ∈ s := by
  induction s with
  | nil => simp [pyReplaceChar] at h
  | cons d ds ih =>
    by_cases hd : d = a
    · simp only [pyReplaceChar, if_pos hd, List.mem_append] at h
      rcases h with h | h
      · exact Or.inl h
      · rcases ih h with h' | h'
        · exact Or.inl h'
        · exact Or.inr (List.mem_cons_of_mem _ h')
    · simp only [pyReplaceChar, if_neg hd, List.mem_cons] at h
      rcases h with h | h
      · exact Or.inr (h ▸ List.mem_cons_self _ _)
      · rcases ih h with h' | h'
        · exact Or.inl h'
        · exact Or.inr (List.mem_cons_of_mem _ h')

theorem not_mem_pyReplaceChar_self (a : Char) (rep s : List Char)
    (h : a ∉ rep) : a ∉ pyReplaceChar a rep s := by
  induction s with
  | nil => simp [pyReplaceChar]
  | cons c cs ih =>
    by_cases hc : c = a <;> simp [pyReplaceChar, hc, h, ih]
    exact fun he => (hc he.symm).elim

theorem mem_squeezeSpaces (c : Char) (s : List Char)
    (h : c ∈ squeezeSpaces s) : c = ' ' ∨ c ∈ s := by
  induction s using squeezeSpaces.induct with
  | case1 => simp [squeezeSpaces] at h
  | case2 d => simp [squeezeSpaces] at h; exact Or.inr (by simp [h])
  | case3 a b t hab ih =>
    simp only [squeezeSpaces, if_pos hab, List.mem_cons] at h
    rcases h with h | h
    · exact Or.inl h
    · rcases ih h with h' | h'
      · exact Or.inl h'
      · exact Or.inr (by simp [h'])
  | case4 a b t hab ih =>
    simp only [squeezeSpaces, if_neg hab, List.mem_cons] at h
    rcases h with h | h
    · exact Or.inr (by simp [h])
    · rcases ih h with h' | h'
      · exact Or.inl h'
      · exact Or.inr (by rcases List.mem_cons.mp h' with h'' | h'' <;> simp [h''])

theorem noDoubleSpace_cons (a b : Char) (t : List Char)
    (h : noDoubleSpace (a :: b :: t) = true) :
    ¬(a = ' ' ∧ b = ' ') ∧ noDoubleSpace (b :: t) = true := by
  simp only [noDoubleSpace, Bool.and_eq_true, Bool.or_eq_true, Bool.not_eq_true',
    beq_eq_false_iff_ne, ne_eq] at h
  exact ⟨fun ⟨ha, hb⟩ => by rcases h.1 with h' | h' <;> exact h' (by assumption), h.2⟩

theorem squeezeSpaces_eq_self (s : List Char)
    (h : noDoubleSpace s = true) : squeezeSpaces s = s := by
  induction s with
  | nil => rfl
  | cons a t ih =>
    match t with
    | [] => rfl
    | b :: t' =>
      obtain ⟨hab, ht⟩ := noDoubleSpace_cons a b t' h
      simp [squeezeSpaces, hab, ih ht]

theorem squeezeSpaces_cons_cons (a b : Char) (t : List Char)
    (hab : ¬(a = ' ' ∧ b = ' ')) :
    squeezeSpaces (a :: b :: t) = a :: squeezeSpaces (b :: t) := by
  simp [squeezeSpaces, hab]

theorem squeezeSpaces_append_clean (s v : List Char)
    (hs : noDoubleSpace s = true) (hv : headNotSpace v) :
    squeezeSpaces (s ++ v) = s ++ squeezeSpaces v := by
  induction s with
  | nil => rfl
  | cons a t ih =>
    match t with
    | [] =>
      match v with
      | [] => rfl
      | c :: cs =>
        have hac : ¬(a = ' ' ∧ c = ' ') := fun ⟨_, hc⟩ => hv hc
        simp [squeezeSpaces_cons_cons a c cs hac]
    | b :: t' =>
      obtain ⟨hab, ht⟩ := noDoubleSpace_cons a b t' hs
      have step := squeezeSpaces_cons_cons a b (t' ++ v) hab
      calc squeezeSpaces (a :: b :: t' ++ v)
          = a :: squeezeSpaces (b :: t' ++ v) := step
        _ = a :: (b :: t' ++ squeezeSpaces v) := by rw [ih ht]
        _ = a :: b :: t' ++ squeezeSpaces v := rfl

theorem squeezeSpaces_append_left (u w : List Char) (hu : lastNotSpace u) :
    squeezeSpaces (u ++ w) = squeezeSpaces u ++ squeezeSpaces w := by
  induction u using squeezeSpaces.induct with
  | case1 => rfl
  | case2 d =>
    match w with
    | [] => rfl
    | c :: cs =>
      have hd : d ≠ ' ' := hu
      have hdc : ¬(d = ' ' ∧ c = ' ') := fun ⟨h1, _⟩ => hd h1
      show squeezeSpaces (d :: c :: cs) = [d] ++ squeezeSpaces (c :: cs)
      rw [squeezeSpaces_cons_cons d c cs hdc]
      rfl
  | case3 a b t hab ih =>
    obtain ⟨ha, hb⟩ := hab
    rcases t with _ | ⟨x, xs⟩
    · exact absurd hb hu
    · have ht : lastNotSpace (x :: xs) := hu
      have step : squeezeSpaces (a :: b :: (x :: xs ++ w))
          = ' ' :: squeezeSpaces (x :: xs ++ w) := by
        simp [squeezeSpaces, ha, hb]
      have step2 : squeezeSpaces (a :: b :: x :: xs)
          = ' ' :: squeezeSpaces (x :: xs) := by
        simp [squeezeSpaces, ha, hb]
      calc squeezeSpaces (a :: b :: (x :: xs) ++ w)
          = ' ' :: squeezeSpaces (x :: xs ++ w) := step
        _ = ' ' :: (squeezeSpaces (x :: xs) ++ squeezeSpaces w) := by rw [ih ht]
        _ = squeezeSpaces (a :: b :: x :: xs) ++ squeezeSpaces w := by
            rw [step2, List.cons_append]
  | case4 a b t hab ih =>
    have ht : lastNotSpace (b :: t) := hu
    calc squeezeSpaces (a :: b :: t ++ w)
        = a :: squeezeSpaces (b :: t ++ w) := squeezeSpaces_cons_cons a b (t ++ w) hab
      _ = a :: (squeezeSpaces (b :: t) ++ squeezeSpaces w) := by rw [ih ht]
      _ = squeezeSpaces (a :: b :: t) ++ squeezeSpaces w := by
          rw [squeezeSpaces_cons_cons a b t hab]; rfl

theorem not_mem_collapse_newline (s : List Char) : '\n' ∉ collapse s := by
  intro hmem
  have h1 := mem_squeezeSpaces _ _ hmem
  rcases h1 with h | h
  · exact absurd h (by decide)
  have h2 := mem_pyReplaceChar '\t' '\n' [' '] _ h
  rcases h2 with h | h
  · exact absurd h (by decide)
  have h3 := mem_squeezeSpaces _ _ h
  rcases h3 with h | h
  · exact absurd h (by decide)
  exact not_mem_pyReplaceChar_self '\n' [] s (by simp) h

theorem not_mem_collapse_tab (s : List Char) : '\t' ∉ collapse s := by
  intro hmem
  have h1 := mem_squeezeSpaces _ _ hmem
  rcases h1 with h | h
  · exact absurd h (by decide)
  exact not_mem_pyReplaceChar_self '\t' [' ']
    (squeezeSpaces (pyReplaceChar '\n' [] s)) (by decide) h

theorem countPosts_connIter (oracle : Nat → PostOutcome) (st : St) :
    countPosts (connIter oracle st).events = countPosts st.events + 1 := by
  cases h : oracle st.k <;> simp [connIter, h, countPosts, isPost]

theorem countPosts_connLoopN (oracle : Nat → PostOutcome) :
    ∀ (n : Nat) (st : St),
      countPosts (Nat.repeat (connIter oracle) n st).events = countPosts st.events + n := by
  intro n
  induction n with
  | zero => intro st; rfl
  | succ m ih =>
    intro st
    have hstep : Nat.repeat (connIter oracle) (m + 1) st
        = connIter oracle (Nat.repeat (connIter oracle) m st) := rfl
    rw [hstep, countPosts_connIter, ih st]
    omega

-- ======================================================================
-- Claim theorems
-- ======================================================================

/-- Claim C1 (counterexample): in scenario A — the endpoint reachable at
once, every response body holding a `gqlSchema` key and no `errors` key —
the run issues 15 POSTs, not exactly one: the connection loop has no break
and POSTs in all 15 iterations. -/
theorem scenarioA_single_post_refuted :
    hasKey gqlBody "gqlSchema" = true ∧
    hasKey gqlBody "errors" = false ∧
    countPosts (run oracleA).1 = 15 ∧
    ¬ countPosts (run oracleA).1 = 1 := by decide

/-- Claim C1 (amended): in scenario A the run issues exactly 15 POSTs (one
per connection-loop iteration, the loop never breaking on success), waits
zero times, and reports the response of the 15th POST immediately. -/
theorem scenarioA_fifteen_posts (bodies : Nat → Json)
    (hgql : ∀ k, hasKey (bodies k) "gqlSchema" = true)
    (herr : ∀ k, hasKey (bodies k) "errors" = false) :
    countPosts (run (fun k => .success (bodies k))).1 = 15 ∧
    countSleeps (run (fun k => .success (bodies k))).1 = 0 ∧
    (run (fun k => .success (bodies k))).2 = .report ⟨14, bodies 14⟩ := by
  simp [run, connLoop, connIter, Nat.repeat, pollLoop, pollIter, herr,
    countPosts, countSleeps, isPost, isSleep]

/-- Claim C1 (witness): the amended statement at the concrete scenario-A
endpoint. -/
theorem scenarioA_fifteen_posts_witness :
    countPosts (run (fun _ => .success gqlBody)).1 = 15 ∧
    countSleeps (run (fun _ => .success gqlBody)).1 = 0 ∧
    (run (fun _ => .success gqlBody)).2 = .report ⟨14, gqlBody⟩ :=
  scenarioA_fifteen_posts (fun _ => gqlBody)
    (fun _ => show hasKey gqlBody "gqlSchema" = true by decide)
    (fun _ => show hasKey gqlBody "errors" = false by decide)

/-- Claim C2 (counterexample): in scenario C — the endpoint accepting every
connection, erroring bodies up to the 4th polling re-POST, clean bodies
afterwards — the polling loop performs 15 extra POSTs and 15 waits, not 4:
`message` is never reassigned, so the clean 5th response cannot stop it. -/
theorem scenarioC_four_extra_refuted :
    countPosts (connLoop oracleC).events = 15 ∧
    countPosts (run oracleC).1 = 30 ∧
    countSleeps (run oracleC).1 = 15 ∧
    ¬ countSleeps (run oracleC).1 = 4 := by decide

/-- Claim C2 (amended): when every connection is accepted and the body
tested after the connection loop — the 15th response, erroring in
scenario C — holds an `errors` key, the polling loop performs exactly 15
extra POSTs and 15 waits regardless of the later responses, and the final
report is the response of the 30th POST. -/
theorem scenarioC_fifteen_extra_posts (bodies : Nat → Json)
    (h1 : ∀ k, k ≤ 18 → hasKey (bodies k) "errors" = true)
    (h2 : ∀ k, 19 ≤ k → hasKey (bodies k) "errors" = false) :
    countPosts (run (fun k => .success (bodies k))).1 = 30 ∧
    countSleeps (run (fun k => .success (bodies k))).1 = 15 ∧
    (run (fun k => .success (bodies k))).2 = .report ⟨29, bodies 29⟩ := by
  have h14 := h1 14 (by norm_num)
  simp [run, connLoop, connIter, Nat.repeat, pollLoop, pollIter, h14,
    countPosts, countSleeps, isPost, isSleep]

/-- Claim C2 (witness): the amended statement at the concrete scenario-C
endpoint. -/
theorem scenarioC_fifteen_extra_posts_witness :
    countPosts (run (fun k => .success (bodiesC k))).1 = 30 ∧
    countSleeps (run (fun k => .success (bodiesC k))).1 = 15 ∧
    (run (fun k => .success (bodiesC k))).2 = .report ⟨29, bodiesC 29⟩ :=
  scenarioC_fifteen_extra_posts bodiesC
    (fun k hk => by
      have : k < 19 := by omega
      simp [bodiesC, this, errBody, hasKey])
    (fun k hk => by
      have : ¬ k < 19 := by omega
      simp [bodiesC, this, gqlBody, hasKey])

/-- Claim C3: if every one of the 15 connection-loop POSTs raises a
connection error, the variable `r` is never assigned, and the line
`message = r.json()` raises an unhandled `NameError`: the run crashes
without printing a final report. -/
theorem all_connError_nameError (oracle : Nat → PostOutcome)
    (h : ∀ k, k < 15 → oracle k = .connError) :
    (connLoop oracle).r = none ∧ (run oracle).2 = .nameErrorCrash := by
  have h0 := h 0 (by norm_num); have h1 := h 1 (by norm_num)
  have h2 := h 2 (by norm_num); have h3 := h 3 (by norm_num)
  have h4 := h 4 (by norm_num); have h5 := h 5 (by norm_num)
  have h6 := h 6 (by norm_num); have h7 := h 7 (by norm_num)
  have h8 := h 8 (by norm_num); have h9 := h 9 (by norm_num)
  have h10 := h 10 (by norm_num); have h11 := h 11 (by norm_num)
  have h12 := h 12 (by norm_num); have h13 := h 13 (by norm_num)
  have h14 := h 14 (by norm_num)
  simp [run, connLoop, connIter, Nat.repeat, h0, h1, h2, h3, h4, h5, h6, h7,
    h8, h9, h10, h11, h12, h13, h14]

/-- Claim C3 (witness): the statement at the always-refusing endpoint. -/
theorem all_connError_nameError_witness :
    (connLoop oracleFail).r = none ∧ (run oracleFail).2 = .nameErrorCrash :=
  all_connError_nameError oracleFail (fun _ _ => rfl)

/-- Claim C4 (counterexample): the whitespace collapse applies to the whole
substituted string, schema text included, so a schema text holding a
newline does not appear verbatim in the produced mutation string. -/
theorem schema_not_verbatim_in_output :
    containsSub ['a', '\n', 'b'] (buildMutation ['a', '\n', 'b']) = false := by decide

/-- Claim C4 (amended): `buildMutation` is a pure function (deterministic),
the substitution step embeds the schema text verbatim between the two
template halves, and the collapse is applied uniformly to the whole string:
a schema text free of newlines, tabs and doubled spaces therefore appears
verbatim in the output, flanked by the collapsed template halves. -/
theorem buildMutation_clean_embeds (s : List Char)
    (h1 : '\n' ∉ s) (h2 : '\t' ∉ s) (h3 : noDoubleSpace s = true) :
    buildMutation s = collapse templatePre ++ s ++ collapse templatePost := by
  have e1 : pyReplaceChar '\n' [] (templatePre ++ s ++ templatePost)
      = pyReplaceChar '\n' [] templatePre ++
        (s ++ pyReplaceChar '\n' [] templatePost) := by
    rw [List.append_assoc, pyReplaceChar_append, pyReplaceChar_append,
      pyReplaceChar_eq_self _ _ _ h1]
  have hp1 : lastNotSpace (pyReplaceChar '\n' [] templatePre) := by decide
  have hq1 : headNotSpace (pyReplaceChar '\n' [] templatePost) := by decide
  have e2 : squeezeSpaces (pyReplaceChar '\n' [] templatePre ++
        (s ++ pyReplaceChar '\n' [] templatePost))
      = squeezeSpaces (pyReplaceChar '\n' [] templatePre) ++
        (s ++ squeezeSpaces (pyReplaceChar '\n' [] templatePost)) := by
    rw [squeezeSpaces_append_left _ _ hp1, squeezeSpaces_append_clean _ _ h3 hq1]
  have e3 : pyReplaceChar '\t' [' ']
        (squeezeSpaces (pyReplaceChar '\n' [] templatePre) ++
          (s ++ squeezeSpaces (pyReplaceChar '\n' [] templatePost)))
      = pyReplaceChar '\t' [' '] (squeezeSpaces (pyReplaceChar '\n' [] templatePre)) ++
        (s ++ pyReplaceChar '\t' [' ']
          (squeezeSpaces (pyReplaceChar '\n' [] templatePost))) := by
    rw [pyReplaceChar_append, pyReplaceChar_append, pyReplaceChar_eq_self _ _ _ h2]
  have hp3 : lastNotSpace (pyReplaceChar '\t' [' ']
      (squeezeSpaces (pyReplaceChar '\n' [] templatePre))) := by decide
  have hq3 : headNotSpace (pyReplaceChar '\t' [' ']
      (squeezeSpaces (pyReplaceChar '\n' [] templatePost))) := by decide
  have e4 : squeezeSpaces
        (pyReplaceChar '\t' [' '] (squeezeSpaces (pyReplaceChar '\n' [] templatePre)) ++
          (s ++ pyReplaceChar '\t' [' ']
            (squeezeSpaces (pyReplaceChar '\n' [] templatePost))))
      = squeezeSpaces (pyReplaceChar '\t' [' ']
          (squeezeSpaces (pyReplaceChar '\n' [] templatePre))) ++
        (s ++ squeezeSpaces (pyReplaceChar '\t' [' ']
          (squeezeSpaces (pyReplaceChar '\n' [] templatePost)))) := by
    rw [squeezeSpaces_append_left _ _ hp3, squeezeSpaces_append_clean _ _ h3 hq3]
  show collapse (templatePre ++ s ++ templatePost) = _
  rw [collapse, e1, e2, e3, e4, collapse, collapse, List.append_assoc]

/-- Claim C4 (witness): the amended statement at a concrete clean schema
text. -/
theorem buildMutation_clean_embeds_witness :
    buildMutation "ab".data = collapse templatePre ++ "ab".data ++ collapse templatePost :=
  buildMutation_clean_embeds "ab".data (by decide) (by decide) (by decide)

/-- Claim C5 (counterexample): a newline in the substituted string is
deleted by the collapse, not turned into a single space. -/
theorem newline_not_mapped_to_space :
    ¬ collapse ['a', '\n', 'b'] = ['a', ' ', 'b'] ∧
    collapse ['a', '\n', 'b'] = ['a', 'b'] := by decide

/-- Claim C5 (amended): the collapse removes every newline outright (the
output never holds a newline, and a newline between two letters leaves no
space behind), while a tab becomes a single space and the output holds no
tab either. -/
theorem collapse_deletes_newlines (s : List Char) :
    '\n' ∉ collapse s ∧ '\t' ∉ collapse s ∧
    collapse ['a', '\n', 'b'] = ['a', 'b'] ∧
    collapse ['a', '\t', 'b'] = ['a', ' ', 'b'] :=
  ⟨not_mem_collapse_newline s, not_mem_collapse_tab s, by decide, by decide⟩

/-- Claim C6: in scenario D — every connection accepted, every body holding
an `errors` key — the run still ends after the fixed bounds (15 + 15
POSTs, 15 waits) and reports the response of the last polling re-POST
together with its decoded body, instead of hanging or crashing. -/
theorem scenarioD_reports_last_error_response (bodies : Nat → Json)
    (herr : ∀ k, hasKey (bodies k) "errors" = true) :
    (run (fun k => .success (bodies k))).2 = .report ⟨29, bodies 29⟩ ∧
    countPosts (run (fun k => .success (bodies k))).1 = 30 ∧
    countSleeps (run (fun k => .success (bodies k))).1 = 15 := by
  simp [run, connLoop, connIter, Nat.repeat, pollLoop, pollIter, herr,
    countPosts, countSleeps, isPost, isSleep]

/-- Claim C6 (witness): the statement at the concrete scenario-D
endpoint. -/
theorem scenarioD_reports_last_error_response_witness :
    (run (fun _ => .success errBody)).2 = .report ⟨29, errBody⟩ ∧
    countPosts (run (fun _ => .success errBody)).1 = 30 ∧
    countSleeps (run (fun _ => .success errBody)).1 = 15 :=
  scenarioD_reports_last_error_response (fun _ => errBody)
    (fun _ => show hasKey errBody "errors" = true by decide)

/-- Claim C7: on a string free of newlines, tabs and doubled spaces the
collapse is the identity — so re-applying it changes nothing — while the
collapse is not a full normalization: nine consecutive spaces collapse to
three consecutive spaces, a surviving run of 3 or more. -/
theorem collapse_clean_identity_partial (s : List Char)
    (h1 : '\n' ∉ s) (h2 : '\t' ∉ s) (h3 : noDoubleSpace s = true) :
    collapse s = s ∧
    collapse (collapse s) = collapse s ∧
    collapse (List.replicate 9 ' ') = List.replicate 3 ' ' ∧
    containsSub [' ', ' ', ' '] (collapse (List.replicate 9 ' ')) = true := by
  have e1 : pyReplaceChar '\n' [] s = s := pyReplaceChar_eq_self _ _ _ h1
  have e2 : squeezeSpaces s = s := squeezeSpaces_eq_self _ h3
  have e3 : pyReplaceChar '\t' [' '] s = s := pyReplaceChar_eq_self _ _ _ h2
  have hc : collapse s = s := by rw [collapse, e1, e2, e3, e2]
  exact ⟨hc, by rw [hc, hc], by decide, by decide⟩

/-- Claim C7 (witness): the statement at a concrete clean string. -/
theorem collapse_clean_identity_partial_witness :
    collapse ['a', ' ', 'b'] = ['a', ' ', 'b'] ∧
    collapse (collapse ['a', ' ', 'b']) = collapse ['a', ' ', 'b'] ∧
    collapse (List.replicate 9 ' ') = List.replicate 3 ' ' ∧
    containsSub [' ', ' ', ' '] (collapse (List.replicate 9 ' ')) = true :=
  collapse_clean_identity_partial ['a', ' ', 'b'] (by decide) (by decide) (by decide)

/-- Claim C8: the connection loop never exits early — it issues exactly 15
POSTs whatever the endpoint does — and when every POST returns a response,
the `r` flowing into the rest of the script is the response of the last
(15th) attempt, with no waits having occurred. -/
theorem connLoop_always_fifteen_posts (oracle : Nat → PostOutcome) (bodies : Nat → Json) :
    countPosts (connLoop oracle).events = 15 ∧
    (connLoop (fun k => .success (bodies k))).r = some ⟨14, bodies 14⟩ ∧
    countSleeps (connLoop (fun k => .success (bodies k))).events = 0 := by
  refine ⟨?_, ?_, ?_⟩
  · have := countPosts_connLoopN oracle 15 ⟨0, none, []⟩
    simpa [connLoop, countPosts] using this
  · simp [connLoop, connIter, Nat.repeat]
  · simp [connLoop, connIter, Nat.repeat, countSleeps, isSleep]

/-- Claim C9: the decoded body tested by the polling loop is fixed (the
loop never reassigns `message`), so its behavior depends only on the body
decoded after the connection loop — the 15th response: if that body holds
an `errors` key, exactly 15 re-POSTs and 15 waits occur whatever the
re-POST responses hold; if it does not, zero re-POSTs and zero waits
occur. -/
theorem polling_fixed_message_behavior (bodies : Nat → Json) :
    (hasKey (bodies 14) "errors" = true →
      countPosts (run (fun k => .success (bodies k))).1 = 30 ∧
      countSleeps (run (fun k => .success (bodies k))).1 = 15) ∧
    (hasKey (bodies 14) "errors" = false →
      countPosts (run (fun k => .success (bodies k))).1 = 15 ∧
      countSleeps (run (fun k => .success (bodies k))).1 = 0) := by
  constructor <;> intro h <;>
    simp [run, connLoop, connIter, Nat.repeat, pollLoop, pollIter, h,
      countPosts, countSleeps, isPost, isSleep]

/-- Claim C9 (witness): the erroring branch at a concrete endpoint whose
first-loop responses all error while the re-POST responses are clean —
the re-POST contents indeed do not matter. -/
theorem polling_fixed_message_behavior_witness :
    countPosts (run (fun k => .success (bodiesC k))).1 = 30 ∧
    countSleeps (run (fun k => .success (bodiesC k))).1 = 15 :=
  (polling_fixed_message_behavior bodiesC).1 (by decide)

/-- Claim C10: a connection error raised by a re-POST inside the polling
loop is not caught: the run ends in an uncaught `ConnectionError` (16
POSTs issued, the last being the fatal one) with no wait taken — the
polling loop does not wait and retry the way the connection loop does. -/
theorem pollLoop_connError_uncaught (oracle : Nat → PostOutcome) (bodies : Nat → Json)
    (h1 : ∀ k, k < 15 → oracle k = .success (bodies k))
    (h2 : hasKey (bodies 14) "errors" = true)
    (h3 : oracle 15 = .connError) :
    (run oracle).2 = .connErrorCrash ∧
    countPosts (run oracle).1 = 16 ∧
    countSleeps (run oracle).1 = 0 := by
  have e0 := h1 0 (by norm_num); have e1 := h1 1 (by norm_num)
  have e2 := h1 2 (by norm_num); have e3 := h1 3 (by norm_num)
  have e4 := h1 4 (by norm_num); have e5 := h1 5 (by norm_num)
  have e6 := h1 6 (by norm_num); have e7 := h1 7 (by norm_num)
  have e8 := h1 8 (by norm_num); have e9 := h1 9 (by norm_num)
  have e10 := h1 10 (by norm_num); have e11 := h1 11 (by norm_num)
  have e12 := h1 12 (by norm_num); have e13 := h1 13 (by norm_num)
  have e14 := h1 14 (by norm_num)
  simp [run, connLoop, connIter, Nat.repeat, pollLoop, pollIter, h2, h3,
    e0, e1, e2, e3, e4, e5, e6, e7, e8, e9, e10, e11, e12, e13, e14,
    countPosts, countSleeps, isPost, isSleep]

/-- Claim C10 (witness): the statement at the concrete endpoint accepting
the 15 connection-loop POSTs with erroring bodies and refusing the first
re-POST. -/
theorem pollLoop_connError_uncaught_witness :
    (run oracleCrash).2 = .connErrorCrash ∧
    countPosts (run oracleCrash).1 = 16 ∧
    countSleeps (run oracleCrash).1 = 0 :=
  pollLoop_connError_uncaught oracleCrash (fun _ => errBody)
    (fun k hk => by
      have : k < 15 := hk
      simp [oracleCrash, this])
    (by decide) (by decide)
